import Mathlib

/-!
Shallow embedding of src/src/kudu/master/master.cc (Apache Kudu master
lifecycle coordinator): node state machine, registration builder, peer
discovery (ListMasters), catalog-manager initialization pipeline and the
leader-readiness poller, together with proofs of the specified properties.
-/

namespace KuduMaster

/-- `kudu::Status`: the result/error type used throughout master.cc.
Each failing constructor carries its message; `timedOut` additionally
carries the second argument passed to `Status::TimedOut` (the context). -/
inductive Status where
  | ok
  | illegalState (msg : String)
  | serviceUnavailable (msg : String)
  | timedOut (msg : String) (ctx : String)
  | networkError (msg : String)
  | remoteError (msg : String)
  deriving DecidableEq, Repr

/-- `Status::ok()` -/
def Status.isOk : Status → Bool
  | .ok => true
  | _ => false

/-- `Status::ToString()` (shape only: the code of C1 depends just on the
fact that an OK status prints as "OK", which is what kudu produces). -/
def Status.toString : Status → String
  | .ok => "OK"
  | .illegalState m => "Illegal state: " ++ m
  | .serviceUnavailable m => "Service unavailable: " ++ m
  | .timedOut m c => "Timed out: " ++ m ++ ": " ++ c
  | .networkError m => "Network error: " ++ m
  | .remoteError m => "Remote error: " ++ m

/-- `Status::CloneAndPrepend(msg)`: prepend `msg ++ ": "` to the message
of a failing status; identity on OK (it is only invoked on failures via
RETURN_NOT_OK_PREPEND). -/
def Status.cloneAndPrepend : Status → String → Status
  | .ok, _ => .ok
  | .illegalState m, p => .illegalState (p ++ ": " ++ m)
  | .serviceUnavailable m, p => .serviceUnavailable (p ++ ": " ++ m)
  | .timedOut m c, p => .timedOut (p ++ ": " ++ m) c
  | .networkError m, p => .networkError (p ++ ": " ++ m)
  | .remoteError m, p => .remoteError (p ++ ": " ++ m)

/-- Master lifecycle states (`MasterState` enum in master.h). -/
inductive NodeState where
  | kStopped
  | kInitialized
  | kRunning
  deriving DecidableEq, Repr

/-!
## Leader-readiness poller

`Master::WaitUntilCatalogManagerIsLeaderAndReadyForTests` (master.cc
lines 205-222).  Time is modelled in milliseconds as `Int` (MonoTime /
MonoDelta); `start` is 0 and `SleepFor` advances the clock by exactly the
requested backoff.  The statuses successively observed through
`ScopedLeaderSharedLock::first_failed_status()` are supplied as the
oracle `samples : Nat -> Status` (sample `i` is the status seen by the
i-th loop iteration).

The local variable `Status s;` declared at line 206 of the source is
initialized to OK and never assigned afterwards, yet its `ToString()` is
passed as the context of the final `Status::TimedOut`; the embedding
reproduces this faithfully (the context is `Status.ok.toString`).
-/

/-- The do-while loop body of the poller.  `i` is the iteration index,
`now` the current time (start = 0), `backoff` the current backoff in ms.
The conjunct `0 < backoff` in the guard is an invariant of the loop
(backoff starts at 1 and `min (2*b) 256` keeps it positive); it is made
explicit here so the recursion visibly terminates and does not change
behaviour on any reachable state. -/
def pollLoop (samples : Nat → Status) (timeout : Int) (i : Nat)
    (now : Int) (backoff : Int) : Status :=
  if (samples i).isOk then
    Status.ok
  -- SleepFor(MonoDelta::FromMilliseconds(backoff_ms)) advances time by
  -- backoff; backoff_ms = min(backoff_ms << 1, kMaxBackoffMs)
  else if h : 0 < backoff ∧ now + backoff < timeout then
    pollLoop samples timeout (i + 1) (now + backoff) (min (backoff * 2) 256)
  else
    -- `s` below is the never-reassigned local `Status s;` of the source
    let s : Status := Status.ok
    Status.timedOut "Maximum time exceeded waiting for master leadership"
      s.toString
termination_by (timeout - now).toNat
decreasing_by omega

/-- `Master::WaitUntilCatalogManagerIsLeaderAndReadyForTests(timeout)`:
start = now = 0, backoff_ms = 1. -/
def waitUntilCatalogManagerIsLeaderAndReadyForTests
    (samples : Nat → Status) (timeout : Int) : Status :=
  pollLoop samples timeout 0 0 1

/-!
## Protobuf data model (master.pb / wire_protocol.pb / consensus metadata)
-/

/-- `consensus::RaftPeerPB::Role`. -/
inductive RaftRole where
  | leader
  | follower
  | learner
  | nonParticipant
  | unknownRole
  deriving DecidableEq, Repr

/-- `NodeInstancePB`: stable node identity.  A default (unset) message
reads back as empty uuid and zero sequence number. -/
structure NodeInstancePB where
  permanent_uuid : String
  instance_seqno : Int
  deriving DecidableEq, Repr

/-- `HostPortPB` from wire_protocol.pb. -/
structure HostPortPB where
  host : String
  port : Nat
  deriving DecidableEq, Repr

/-- A resolved `Sockaddr`; only its identity matters to this file. -/
structure Sockaddr where
  host : String
  port : Nat
  deriving DecidableEq, Repr

/-- `HostPort` (util/net/net_util.h). -/
structure HostPort where
  host : String
  port : Nat
  deriving DecidableEq, Repr

/-- `HostPort::ToString()` prints host:port. -/
def HostPort.toString (hp : HostPort) : String :=
  hp.host ++ ":" ++ Nat.repr hp.port

/-- `ServerRegistrationPB`: the advertised network/version identity. -/
structure ServerRegistrationPB where
  rpc_addresses : List HostPortPB
  http_addresses : List HostPortPB
  https_enabled : Option Bool
  software_version : Option String
  deriving DecidableEq, Repr

/-- A default-constructed `ServerRegistrationPB` (all fields unset). -/
def emptyRegistration : ServerRegistrationPB :=
  { rpc_addresses := [], http_addresses := [],
    https_enabled := none, software_version := none }

/-- `ServerEntryPB`: one peer-discovery result entry.  The embedded
`AppStatusPB` error is modelled by `Status` itself
(StatusToPB/StatusFromPB being inverse encodings). -/
structure ServerEntryPB where
  instance_id : NodeInstancePB
  registration : Option ServerRegistrationPB
  role : Option RaftRole
  error : Option Status
  deriving DecidableEq, Repr

/-- A default-constructed `ServerEntryPB`: every field unset; reading the
unset `instance_id` submessage yields the default instance, whose uuid is
the empty string. -/
def defaultServerEntry : ServerEntryPB :=
  { instance_id := { permanent_uuid := "", instance_seqno := 0 },
    registration := none, role := none, error := none }

/-!
## Master state
-/

/-- `MasterOptions`: read-only configuration.  `distributed` is the value
of `opts_.IsDistributed()` (computed outside this translation unit). -/
structure MasterOptions where
  master_addresses : List HostPort
  distributed : Bool
  deriving DecidableEq, Repr

/-- The fields of `Master` the claims depend on.  `catalogIsInitialized`
and `catalogNodeInstance` stand for `catalog_manager_->IsInitialized()`
and `catalog_manager_->NodeInstance()`; `init_status` is the one-shot
`Promise<Status> init_status_` (`none` = not yet set). -/
structure Master where
  state : NodeState
  opts : MasterOptions
  registration : ServerRegistrationPB
  registration_initialized : Bool
  catalogIsInitialized : Bool
  catalogNodeInstance : NodeInstancePB
  init_status : Option Status
  deriving DecidableEq, Repr

/-!
## Registration builder (master.cc lines 243-272)
-/

/-- `Master::GetMasterRegistration(reg)`: service-unavailable unless the
`registration_initialized_` flag (acquire load) is set; otherwise a copy
of `registration_`. -/
def getMasterRegistration (m : Master) : Except Status ServerRegistrationPB :=
  if !m.registration_initialized then
    Except.error (Status.serviceUnavailable "Master startup not complete")
  else
    Except.ok m.registration

/-- The webserver half of the environment `InitMasterRegistration` reads:
`web_server()->GetAdvertisedAddresses` and `web_server()->IsSecure()`.
External calls follow the C++ convention of a `Status` return plus an
out-parameter, the out-parameter being meaningful when the status is OK
(so a failure with an OK status cannot be represented, exactly as with
RETURN_NOT_OK). -/
structure WebserverInfo where
  advertised_addresses : Status × List Sockaddr
  is_secure : Bool

/-- Environment read by `InitMasterRegistration`:
`rpc_server()->GetAdvertisedAddresses()`, the external conversion
`AddHostPortPBs` (wire_protocol.cc, may fail on reverse lookup), the
optional webserver, and `VersionInfo::GetVersionInfo()`. -/
structure RegistrationEnv where
  rpc_advertised_addresses : Status × List Sockaddr
  addHostPortPBs : List Sockaddr → Status × List HostPortPB
  web_server : Option WebserverInfo
  version_info : String

/-- The local `ServerRegistrationPB reg` built by `InitMasterRegistration`
(lines 254-266), together with the status of the RETURN_NOT_OK chain: on
a failure the partially built local value is abandoned and never
published (source message for the first failure is "Couldn't get RPC
addresses"; spelled here without the apostrophe). -/
def buildRegistration (env : RegistrationEnv) : Status × ServerRegistrationPB :=
  let r1 := env.rpc_advertised_addresses
  if !r1.1.isOk then
    (r1.1.cloneAndPrepend "Couldnt get RPC addresses", emptyRegistration)
  else
    let c1 := env.addHostPortPBs r1.2
    if !c1.1.isOk then (c1.1, emptyRegistration)
    else
      let reg0 := { emptyRegistration with rpc_addresses := c1.2 }
      match env.web_server with
      | none => (Status.ok, { reg0 with software_version := some env.version_info })
      | some w =>
        if !w.advertised_addresses.1.isOk then (w.advertised_addresses.1, reg0)
        else
          let c2 := env.addHostPortPBs w.advertised_addresses.2
          if !c2.1.isOk then (c2.1, reg0)
          else
            (Status.ok,
             { reg0 with http_addresses := c2.2,
                         https_enabled := some w.is_secure,
                         software_version := some env.version_info })

/-- `Master::InitMasterRegistration()`: build the registration; on
success swap it into `registration_` and set `registration_initialized_`
(release store); on failure the master is untouched.  The
`CHECK(!registration_initialized_.load())` at entry is a fatal
precondition, carried as a hypothesis in the theorems. -/
def initMasterRegistration (m : Master) (env : RegistrationEnv) :
    Status × Master :=
  let b := buildRegistration env
  if !b.1.isOk then (b.1, m)
  else (Status.ok, { m with registration := b.2, registration_initialized := true })

/-!
## StartAsync, the initialization pipeline and Shutdown
-/

/-- Outcomes of the external steps `Master::StartAsync` performs, in
source order: `maintenance_manager_->Init`, the three `RegisterService`
calls, `KuduServer::Start`, the environment for
`InitMasterRegistration`, and `init_pool_->SubmitClosure`. -/
structure StartAsyncEnv where
  maintenance_manager_init : Status
  register_master_service : Status
  register_consensus_service : Status
  register_tablet_copy_service : Status
  kudu_server_start : Status
  reg_env : RegistrationEnv
  submit_init_task : Status

/-- `Master::StartAsync()` (lines 154-180).  `CHECK_EQ(kInitialized,
state_)` is a fatal precondition, carried as a hypothesis in the
theorems.  Returns the status and the resulting master state; each
RETURN_NOT_OK aborts before `state_ = kRunning`. -/
def startAsync (m : Master) (env : StartAsyncEnv) : Status × Master :=
  if !env.maintenance_manager_init.isOk then (env.maintenance_manager_init, m)
  else if !env.register_master_service.isOk then (env.register_master_service, m)
  else if !env.register_consensus_service.isOk then (env.register_consensus_service, m)
  else if !env.register_tablet_copy_service.isOk then (env.register_tablet_copy_service, m)
  else if !env.kudu_server_start.isOk then (env.kudu_server_start, m)
  else
    let r := initMasterRegistration m env.reg_env
    if !r.1.isOk then (r.1, r.2)
    else
      let m1 := r.2
      if !env.submit_init_task.isOk then (env.submit_init_task, m1)
      else (Status.ok, { m1 with state := NodeState.kRunning })

/-- `Master::InitCatalogManager()` (lines 190-197): illegal-state if the
catalog manager is already initialized, otherwise
`catalog_manager_->Init(is_first_run_)` with its failure prefixed.
`catalog_init` is the status returned by that external call. -/
def initCatalogManager (m : Master) (catalog_init : Status) : Status :=
  if m.catalogIsInitialized then
    Status.illegalState "Catalog manager is already initialized"
  else if !catalog_init.isOk then
    catalog_init.cloneAndPrepend "Unable to initialize catalog manager"
  else
    Status.ok

/-- `Master::InitCatalogManagerTask()` (lines 182-188): run
`InitCatalogManager` and write its result into the one-shot promise
`init_status_` (`Promise::Set`; setting an already-set promise is fatal,
hence the `init_status = none` precondition in the theorems). -/
def initCatalogManagerTask (m : Master) (catalog_init : Status) : Master :=
  { m with init_status := some (initCatalogManager m catalog_init) }

/-- `Master::WaitForCatalogManagerInit()` (lines 199-203):
`CHECK_EQ(state_, kRunning)` is a fatal precondition; `Promise::Get`
blocks until the promise is set, so the observable return value exists
exactly when `init_status = some s`. -/
def waitForCatalogManagerInit (m : Master) : Option Status :=
  m.init_status

/-- The teardown actions `Master::Shutdown` performs when running, in
source order. -/
inductive TeardownStep where
  | unregisterAllServices
  | maintenanceManagerShutdown
  | catalogManagerShutdown
  | kuduServerShutdown
  deriving DecidableEq, Repr

/-- `Master::Shutdown()` (lines 224-241): the teardown sequence runs only
from `kRunning`; `state_ = kStopped` is assigned unconditionally at the
end.  The C++ function returns void, so there is no status to propagate;
the performed steps are returned as a trace. -/
def shutdown (m : Master) : Master × List TeardownStep :=
  if m.state = NodeState.kRunning then
    ({ m with state := NodeState.kStopped },
      [TeardownStep.unregisterAllServices,
       TeardownStep.maintenanceManagerShutdown,
       TeardownStep.catalogManagerShutdown,
       TeardownStep.kuduServerShutdown])
  else
    ({ m with state := NodeState.kStopped }, [])

/-!
## Peer discovery (master.cc lines 279-297 and 301-332)
-/

/-- `GetMasterRegistrationResponsePB`: the RPC response.  `error` models
`has_error()`/`error().status()` decoded by StatusFromPB. -/
structure GetMasterRegistrationResponsePB where
  instance_id : NodeInstancePB
  error : Option Status
  registration : ServerRegistrationPB
  role : RaftRole
  deriving DecidableEq, Repr

/-- What the network does for one peer, step by step, mirroring the
RETURN_NOT_OK chain of `GetMasterEntryForHost`: the status of
`SockaddrFromHostPort`, the transport status of
`proxy.GetMasterRegistration` (consulted only if resolution succeeded),
and the response (meaningful only if both succeeded). -/
structure PeerRpcEnv where
  resolve : Status
  rpcCall : Status
  resp : GetMasterRegistrationResponsePB
  deriving DecidableEq, Repr

/-- The peer produced no response: resolution or the RPC itself failed
before a response was received. -/
def peerNoResponse (p : PeerRpcEnv) : Bool :=
  !p.resolve.isOk || !p.rpcCall.isOk

/-- `GetMasterEntryForHost` (lines 279-297): returns the final status
together with the state of the out-parameter `e`, which starts
default-constructed and is mutated in source order (`instance_id` is
copied from the response before the embedded error is checked). -/
def getMasterEntryForHost (p : PeerRpcEnv) : Status × ServerEntryPB :=
  if !p.resolve.isOk then (p.resolve, defaultServerEntry)
  else if !p.rpcCall.isOk then (p.rpcCall, defaultServerEntry)
  else
    let e1 := { defaultServerEntry with instance_id := p.resp.instance_id }
    match p.resp.error with
    | some st => (st, e1)
    | none =>
      (Status.ok,
       { e1 with registration := some p.resp.registration, role := some p.resp.role })

/-- One iteration of the `ListMasters` peer loop (lines 317-328): the
outcome of `GetMasterEntryForHost` for `peer_addr` is captured as a
`ServerEntryPB`, a failure being downgraded into the entry's `error`
field after prepending the peer context. -/
def masterEntryForPeer (peer_addr : HostPort) (p : PeerRpcEnv) : ServerEntryPB :=
  let r := getMasterEntryForHost p
  if (r.1).isOk then r.2
  else
    { r.2 with error := some (r.1.cloneAndPrepend
        ("Unable to get registration information for peer (" ++
          peer_addr.toString ++ ")")) }

/-- The dedup key: `instance_id().permanent_uuid()`. -/
def entryUuid (e : ServerEntryPB) : String :=
  e.instance_id.permanent_uuid

/-- `std::set<ServerEntryPB, uuid_cmp>` with `InsertIfNotPresent`
(gutil/map-util.h): the set is modelled as its strictly-uuid-sorted
element list; inserting an entry whose key is already present leaves the
set unchanged (first entry wins). -/
def insertIfNotPresent (l : List ServerEntryPB) (e : ServerEntryPB) :
    List ServerEntryPB :=
  match l with
  | [] => [e]
  | x :: xs =>
    if entryUuid e < entryUuid x then e :: x :: xs
    else if entryUuid x < entryUuid e then x :: insertIfNotPresent xs e
    else x :: xs

/-- `Master::ListMasters(masters)` (lines 301-332).  `rpc` is the network
environment: what contacting each configured address does.  Single-node
mode builds the local entry (leader role) from the catalog manager's
node instance and `GetMasterRegistration`; multi-node mode folds every
configured address through the dedup set and copies the set out. -/
def listMasters (m : Master) (rpc : HostPort → PeerRpcEnv) :
    Except Status (List ServerEntryPB) :=
  if !m.opts.distributed then
    match getMasterRegistration m with
    | Except.error s => Except.error s
    | Except.ok reg =>
      Except.ok [{ instance_id := m.catalogNodeInstance,
                   registration := some reg,
                   role := some RaftRole.leader,
                   error := none }]
  else
    Except.ok (m.opts.master_addresses.foldl
      (fun acc a => insertIfNotPresent acc (masterEntryForPeer a (rpc a))) [])

/-!
## Concrete values used by the witnesses
-/

/-- A concrete node identity. -/
def exInstanceA : NodeInstancePB := { permanent_uuid := "aaaa", instance_seqno := 1 }

/-- A second concrete node identity. -/
def exInstanceB : NodeInstancePB := { permanent_uuid := "bbbb", instance_seqno := 2 }

/-- A concrete built registration. -/
def exRegistration : ServerRegistrationPB :=
  { rpc_addresses := [{ host := "m1", port := 7051 }],
    http_addresses := [], https_enabled := none,
    software_version := some "kudu 1.4.0" }

/-- A master that has completed `Init` (registration not yet built). -/
def exMasterInit : Master :=
  { state := NodeState.kInitialized,
    opts := { master_addresses := [], distributed := false },
    registration := emptyRegistration,
    registration_initialized := false,
    catalogIsInitialized := false,
    catalogNodeInstance := exInstanceA,
    init_status := none }

/-- A running master whose registration has been built. -/
def exMasterRunning : Master :=
  { exMasterInit with
    state := NodeState.kRunning,
    registration := exRegistration,
    registration_initialized := true }

/-- A running master whose catalog manager already reports initialized. -/
def exMasterCatalogInited : Master :=
  { exMasterRunning with catalogIsInitialized := true }

/-- Three configured peer addresses. -/
def exAddrA : HostPort := { host := "a", port := 1 }

/-- Second configured peer address. -/
def exAddrB : HostPort := { host := "b", port := 2 }

/-- Third configured peer address. -/
def exAddrC : HostPort := { host := "c", port := 3 }

/-- A running multi-node master configured with addresses A, B, C. -/
def exMasterMulti : Master :=
  { exMasterRunning with
    opts := { master_addresses := [exAddrA, exAddrB, exAddrC], distributed := true } }

/-- A registration environment in which every external step succeeds. -/
def exRegEnv : RegistrationEnv :=
  { rpc_advertised_addresses := (Status.ok, [{ host := "m1", port := 7051 }]),
    addHostPortPBs := fun l =>
      (Status.ok, l.map (fun s => { host := s.host, port := s.port })),
    web_server := none,
    version_info := "kudu 1.4.0" }

/-- A `StartAsync` environment in which every step succeeds. -/
def exStartEnvOk : StartAsyncEnv :=
  { maintenance_manager_init := Status.ok,
    register_master_service := Status.ok,
    register_consensus_service := Status.ok,
    register_tablet_copy_service := Status.ok,
    kudu_server_start := Status.ok,
    reg_env := exRegEnv,
    submit_init_task := Status.ok }

/-- A successful registration response for the given identity and role. -/
def exResp (inst : NodeInstancePB) (role : RaftRole) :
    GetMasterRegistrationResponsePB :=
  { instance_id := inst, error := none,
    registration := exRegistration, role := role }

/-- Network environment: A answers as leader, B is unreachable (transport
failure, no response received), C answers as follower. -/
def exRpcOneDown : HostPort → PeerRpcEnv := fun a =>
  if a = exAddrB then
    { resolve := Status.ok,
      rpcCall := Status.networkError "connection refused",
      resp := exResp exInstanceA RaftRole.leader }
  else if a = exAddrA then
    { resolve := Status.ok, rpcCall := Status.ok,
      resp := exResp exInstanceA RaftRole.leader }
  else
    { resolve := Status.ok, rpcCall := Status.ok,
      resp := exResp exInstanceB RaftRole.follower }

/-- Network environment: A and B are both unreachable, C answers. -/
def exRpcTwoDown : HostPort → PeerRpcEnv := fun a =>
  if a = exAddrC then
    { resolve := Status.ok, rpcCall := Status.ok,
      resp := exResp exInstanceB RaftRole.follower }
  else
    { resolve := Status.ok,
      rpcCall := Status.networkError "connection refused",
      resp := exResp exInstanceA RaftRole.leader }

/-- Network environment: A and B both answer as the same node (one
physical peer under two configured addresses), C answers as another. -/
def exRpcDup : HostPort → PeerRpcEnv := fun a =>
  if a = exAddrC then
    { resolve := Status.ok, rpcCall := Status.ok,
      resp := exResp exInstanceB RaftRole.follower }
  else
    { resolve := Status.ok, rpcCall := Status.ok,
      resp := exResp exInstanceA RaftRole.leader }

end KuduMaster

namespace KuduMaster

/-- Unfolding helper for the loop. -/
theorem pollLoop_eq (samples : Nat → Status) (timeout : Int) (i : Nat)
    (now : Int) (backoff : Int) :
    pollLoop samples timeout i now backoff =
      if (samples i).isOk then Status.ok
      else if 0 < backoff ∧ now + backoff < timeout then
        pollLoop samples timeout (i + 1) (now + backoff) (min (backoff * 2) 256)
      else
        Status.timedOut "Maximum time exceeded waiting for master leadership"
          Status.ok.toString := by
  rw [pollLoop.eq_def]
  by_cases hok : (samples i).isOk
  · simp [hok]
  · by_cases hc : 0 < backoff ∧ now + backoff < timeout
    · simp [hok, hc]
    · simp [hok, hc, Status.toString]

/-- A status is `isOk` exactly when it is the OK constructor. -/
theorem Status.isOk_iff (s : Status) : s.isOk = true ↔ s = Status.ok := by
  cases s <;> simp [Status.isOk]

/-- Whatever statuses the leadership snapshots report, the poll loop can
only return OK or the fixed timed-out status whose context is the string
of an OK status (the local `Status s;` is never assigned). -/
theorem pollLoop_result (samples : Nat → Status) (timeout : Int) (i : Nat)
    (now backoff : Int) :
    pollLoop samples timeout i now backoff = Status.ok ∨
    pollLoop samples timeout i now backoff =
      Status.timedOut "Maximum time exceeded waiting for master leadership" "OK" := by
  rw [pollLoop_eq]
  by_cases hok : (samples i).isOk
  · exact Or.inl (by simp [hok])
  · by_cases hc : 0 < backoff ∧ now + backoff < timeout
    · simpa [hok, hc] using
        pollLoop_result samples timeout (i + 1) (now + backoff) (min (backoff * 2) 256)
    · exact Or.inr (by simp [hok, hc, Status.toString])
termination_by (timeout - now).toNat
decreasing_by omega

/-- C1: the claim says the timed-out failure carries the last failure
status observed from the leadership snapshot as context.  The code
instead passes `s.ToString()` for a local `Status s;` that is never
assigned, so the context is always the rendering of an OK status.
Concretely: with every sample reporting the failure "no leader" and a
1 ms timeout, the result's context is "OK", which is not the rendering
of the observed failure; and in general the result of the wait never
depends on the observed failure statuses. -/
theorem timeout_context_drops_observed_failure :
    waitUntilCatalogManagerIsLeaderAndReadyForTests
        (fun _ => Status.illegalState "no leader") 1
      = Status.timedOut "Maximum time exceeded waiting for master leadership" "OK"
    ∧ (Status.illegalState "no leader").toString ≠ "OK"
    ∧ (∀ samples : Nat → Status, ∀ timeout : Int,
        waitUntilCatalogManagerIsLeaderAndReadyForTests samples timeout = Status.ok ∨
        waitUntilCatalogManagerIsLeaderAndReadyForTests samples timeout =
          Status.timedOut "Maximum time exceeded waiting for master leadership" "OK") := by
  refine ⟨?_, ?_, ?_⟩
  · rw [waitUntilCatalogManagerIsLeaderAndReadyForTests, pollLoop_eq]
    norm_num [Status.isOk, Status.toString]
  · simp [Status.toString]
  · intro samples timeout
    exact pollLoop_result samples timeout 0 0 1

/-- C10: the loop body samples the leadership status before the deadline
is consulted (do-while), so for every timeout — zero and negative
included — a first sample reporting no failure yields success. -/
theorem poller_samples_before_deadline_check (samples : Nat → Status)
    (timeout : Int) (h : samples 0 = Status.ok) :
    waitUntilCatalogManagerIsLeaderAndReadyForTests samples timeout = Status.ok := by
  rw [waitUntilCatalogManagerIsLeaderAndReadyForTests, pollLoop_eq, h]
  simp [Status.isOk]

/-- Witness for C10 at a negative timeout. -/
theorem poller_samples_before_deadline_check_witness :
    waitUntilCatalogManagerIsLeaderAndReadyForTests (fun _ => Status.ok) (-5)
      = Status.ok :=
  poller_samples_before_deadline_check (fun _ => Status.ok) (-5) rfl

/-- C3: `GetMasterRegistration` fails (and then only with the
service-unavailable status) exactly when the initialized flag is unset;
once `InitMasterRegistration` succeeds, the flag is set and every call
returns exactly the snapshot that was built. -/
theorem registration_unavailable_iff_not_built (m : Master) :
    (getMasterRegistration m =
        Except.error (Status.serviceUnavailable "Master startup not complete")
      ↔ m.registration_initialized = false)
    ∧ (∀ s, getMasterRegistration m = Except.error s →
        s = Status.serviceUnavailable "Master startup not complete")
    ∧ (m.registration_initialized = true →
        getMasterRegistration m = Except.ok m.registration)
    ∧ (∀ env, (initMasterRegistration m env).1 = Status.ok →
        ((initMasterRegistration m env).2.registration_initialized = true
        ∧ (buildRegistration env).1 = Status.ok
        ∧ (initMasterRegistration m env).2.registration = (buildRegistration env).2
        ∧ getMasterRegistration (initMasterRegistration m env).2 =
            Except.ok (buildRegistration env).2)) := by
  refine ⟨?_, ?_, ?_, ?_⟩
  · cases hflag : m.registration_initialized <;> simp [getMasterRegistration, hflag]
  · intro s hs
    cases hflag : m.registration_initialized
    · simp [getMasterRegistration, hflag] at hs
      simp [hs]
    · simp [getMasterRegistration, hflag] at hs
  · intro hflag
    simp [getMasterRegistration, hflag]
  · intro env hok
    by_cases hb : (buildRegistration env).1.isOk = true
    · have hb' : (buildRegistration env).1 = Status.ok := (Status.isOk_iff _).mp hb
      refine ⟨?_, hb', ?_, ?_⟩ <;> simp [initMasterRegistration, hb, getMasterRegistration]
    · exfalso
      simp [initMasterRegistration, hb] at hok
      rw [hok] at hb
      exact hb rfl

/-- Witness for C3 at a master whose registration is built. -/
theorem registration_unavailable_iff_not_built_witness :
    getMasterRegistration exMasterRunning = Except.ok exMasterRunning.registration :=
  (registration_unavailable_iff_not_built exMasterRunning).2.2.1 rfl

/-- `StartAsync` when `maintenance_manager_->Init` fails. -/
theorem startAsync_maint_fail (m : Master) (env : StartAsyncEnv)
    (h1 : env.maintenance_manager_init ≠ Status.ok) :
    startAsync m env = (env.maintenance_manager_init, m) := by
  simp [startAsync, Status.isOk_iff, h1]

/-- `StartAsync` when registering the master service fails. -/
theorem startAsync_regmaster_fail (m : Master) (env : StartAsyncEnv)
    (h1 : env.maintenance_manager_init = Status.ok)
    (h2 : env.register_master_service ≠ Status.ok) :
    startAsync m env = (env.register_master_service, m) := by
  simp [startAsync, Status.isOk_iff, h1, h2, Status.isOk]

/-- `StartAsync` when registering the consensus service fails. -/
theorem startAsync_regconsensus_fail (m : Master) (env : StartAsyncEnv)
    (h1 : env.maintenance_manager_init = Status.ok)
    (h2 : env.register_master_service = Status.ok)
    (h3 : env.register_consensus_service ≠ Status.ok) :
    startAsync m env = (env.register_consensus_service, m) := by
  simp [startAsync, Status.isOk_iff, h1, h2, h3, Status.isOk]

/-- `StartAsync` when registering the tablet-copy service fails. -/
theorem startAsync_regtabletcopy_fail (m : Master) (env : StartAsyncEnv)
    (h1 : env.maintenance_manager_init = Status.ok)
    (h2 : env.register_master_service = Status.ok)
    (h3 : env.register_consensus_service = Status.ok)
    (h4 : env.register_tablet_copy_service ≠ Status.ok) :
    startAsync m env = (env.register_tablet_copy_service, m) := by
  simp [startAsync, Status.isOk_iff, h1, h2, h3, h4, Status.isOk]

/-- `StartAsync` when the generic `KuduServer::Start` fails. -/
theorem startAsync_serverstart_fail (m : Master) (env : StartAsyncEnv)
    (h1 : env.maintenance_manager_init = Status.ok)
    (h2 : env.register_master_service = Status.ok)
    (h3 : env.register_consensus_service = Status.ok)
    (h4 : env.register_tablet_copy_service = Status.ok)
    (h5 : env.kudu_server_start ≠ Status.ok) :
    startAsync m env = (env.kudu_server_start, m) := by
  simp [startAsync, Status.isOk_iff, h1, h2, h3, h4, h5, Status.isOk]

/-- `StartAsync` when building the registration fails. -/
theorem startAsync_reg_fail (m : Master) (env : StartAsyncEnv)
    (h1 : env.maintenance_manager_init = Status.ok)
    (h2 : env.register_master_service = Status.ok)
    (h3 : env.register_consensus_service = Status.ok)
    (h4 : env.register_tablet_copy_service = Status.ok)
    (h5 : env.kudu_server_start = Status.ok)
    (hreg : (buildRegistration env.reg_env).1 ≠ Status.ok) :
    startAsync m env = ((buildRegistration env.reg_env).1, m) := by
  simp [startAsync, initMasterRegistration, Status.isOk_iff,
    h1, h2, h3, h4, h5, hreg, Status.isOk]

/-- `StartAsync` when submitting the catalog-manager init task fails:
the registration has already been published, but the state stays put. -/
theorem startAsync_submit_fail (m : Master) (env : StartAsyncEnv)
    (h1 : env.maintenance_manager_init = Status.ok)
    (h2 : env.register_master_service = Status.ok)
    (h3 : env.register_consensus_service = Status.ok)
    (h4 : env.register_tablet_copy_service = Status.ok)
    (h5 : env.kudu_server_start = Status.ok)
    (hreg : (buildRegistration env.reg_env).1 = Status.ok)
    (h7 : env.submit_init_task ≠ Status.ok) :
    startAsync m env = (env.submit_init_task,
      { m with registration := (buildRegistration env.reg_env).2,
               registration_initialized := true }) := by
  simp [startAsync, initMasterRegistration, Status.isOk_iff,
    h1, h2, h3, h4, h5, hreg, h7, Status.isOk]

/-- `StartAsync` when every step succeeds. -/
theorem startAsync_all_ok (m : Master) (env : StartAsyncEnv)
    (h1 : env.maintenance_manager_init = Status.ok)
    (h2 : env.register_master_service = Status.ok)
    (h3 : env.register_consensus_service = Status.ok)
    (h4 : env.register_tablet_copy_service = Status.ok)
    (h5 : env.kudu_server_start = Status.ok)
    (hreg : (buildRegistration env.reg_env).1 = Status.ok)
    (h7 : env.submit_init_task = Status.ok) :
    startAsync m env = (Status.ok,
      { m with registration := (buildRegistration env.reg_env).2,
               registration_initialized := true,
               state := NodeState.kRunning }) := by
  simp [startAsync, initMasterRegistration,
    h1, h2, h3, h4, h5, hreg, h7, Status.isOk]

/-- Exhaustive characterization of `StartAsync`: either every step
succeeded, the result is OK and the state advanced to Running, or some
step failed, the result is that failure and the state field is
untouched. -/
theorem startAsync_cases (m : Master) (env : StartAsyncEnv) :
    ((startAsync m env).1 = Status.ok
      ∧ (startAsync m env).2.state = NodeState.kRunning
      ∧ env.maintenance_manager_init = Status.ok
      ∧ env.register_master_service = Status.ok
      ∧ env.register_consensus_service = Status.ok
      ∧ env.register_tablet_copy_service = Status.ok
      ∧ env.kudu_server_start = Status.ok
      ∧ (buildRegistration env.reg_env).1 = Status.ok
      ∧ env.submit_init_task = Status.ok)
    ∨ ((startAsync m env).1 ≠ Status.ok
        ∧ (startAsync m env).2.state = m.state) := by
  by_cases h1 : env.maintenance_manager_init = Status.ok
  · by_cases h2 : env.register_master_service = Status.ok
    · by_cases h3 : env.register_consensus_service = Status.ok
      · by_cases h4 : env.register_tablet_copy_service = Status.ok
        · by_cases h5 : env.kudu_server_start = Status.ok
          · by_cases hreg : (buildRegistration env.reg_env).1 = Status.ok
            · by_cases h7 : env.submit_init_task = Status.ok
              · rw [startAsync_all_ok m env h1 h2 h3 h4 h5 hreg h7]
                exact Or.inl ⟨rfl, rfl, h1, h2, h3, h4, h5, hreg, h7⟩
              · rw [startAsync_submit_fail m env h1 h2 h3 h4 h5 hreg h7]
                exact Or.inr ⟨h7, rfl⟩
            · rw [startAsync_reg_fail m env h1 h2 h3 h4 h5 hreg]
              exact Or.inr ⟨hreg, rfl⟩
          · rw [startAsync_serverstart_fail m env h1 h2 h3 h4 h5]
            exact Or.inr ⟨h5, rfl⟩
        · rw [startAsync_regtabletcopy_fail m env h1 h2 h3 h4]
          exact Or.inr ⟨h4, rfl⟩
      · rw [startAsync_regconsensus_fail m env h1 h2 h3]
        exact Or.inr ⟨h3, rfl⟩
    · rw [startAsync_regmaster_fail m env h1 h2]
      exact Or.inr ⟨h2, rfl⟩
  · rw [startAsync_maint_fail m env h1]
    exact Or.inr ⟨h1, rfl⟩

/-- C5: from the Initialized state, `StartAsync` succeeds exactly when
every step succeeds; the state becomes Running exactly on success; any
failure leaves the state Initialized; and the returned status is the
first failing step's status (for the registration build, the build
failure itself). -/
theorem startAsync_failure_keeps_initialized (m : Master) (env : StartAsyncEnv)
    (h : m.state = NodeState.kInitialized) :
    ((startAsync m env).1 = Status.ok ↔
      (env.maintenance_manager_init = Status.ok
        ∧ env.register_master_service = Status.ok
        ∧ env.register_consensus_service = Status.ok
        ∧ env.register_tablet_copy_service = Status.ok
        ∧ env.kudu_server_start = Status.ok
        ∧ (buildRegistration env.reg_env).1 = Status.ok
        ∧ env.submit_init_task = Status.ok))
    ∧ ((startAsync m env).2.state = NodeState.kRunning ↔ (startAsync m env).1 = Status.ok)
    ∧ ((startAsync m env).1 ≠ Status.ok →
        (startAsync m env).2.state = NodeState.kInitialized)
    ∧ (env.maintenance_manager_init ≠ Status.ok →
        (startAsync m env).1 = env.maintenance_manager_init)
    ∧ (env.maintenance_manager_init = Status.ok →
        env.register_master_service ≠ Status.ok →
        (startAsync m env).1 = env.register_master_service)
    ∧ (env.maintenance_manager_init = Status.ok →
        env.register_master_service = Status.ok →
        env.register_consensus_service ≠ Status.ok →
        (startAsync m env).1 = env.register_consensus_service)
    ∧ (env.maintenance_manager_init = Status.ok →
        env.register_master_service = Status.ok →
        env.register_consensus_service = Status.ok →
        env.register_tablet_copy_service ≠ Status.ok →
        (startAsync m env).1 = env.register_tablet_copy_service)
    ∧ (env.maintenance_manager_init = Status.ok →
        env.register_master_service = Status.ok →
        env.register_consensus_service = Status.ok →
        env.register_tablet_copy_service = Status.ok →
        env.kudu_server_start ≠ Status.ok →
        (startAsync m env).1 = env.kudu_server_start)
    ∧ (env.maintenance_manager_init = Status.ok →
        env.register_master_service = Status.ok →
        env.register_consensus_service = Status.ok →
        env.register_tablet_copy_service = Status.ok →
        env.kudu_server_start = Status.ok →
        (buildRegistration env.reg_env).1 ≠ Status.ok →
        (startAsync m env).1 = (buildRegistration env.reg_env).1)
    ∧ (env.maintenance_manager_init = Status.ok →
        env.register_master_service = Status.ok →
        env.register_consensus_service = Status.ok →
        env.register_tablet_copy_service = Status.ok →
        env.kudu_server_start = Status.ok →
        (buildRegistration env.reg_env).1 = Status.ok →
        env.submit_init_task ≠ Status.ok →
        (startAsync m env).1 = env.submit_init_task) := by
  refine ⟨⟨?_, ?_⟩, ⟨?_, ?_⟩, ?_, ?_, ?_, ?_, ?_, ?_, ?_, ?_⟩
  · intro hok
    rcases startAsync_cases m env with hsucc | hfail
    · exact hsucc.2.2
    · exact absurd hok hfail.1
  · rintro ⟨h1, h2, h3, h4, h5, hreg, h7⟩
    rw [startAsync_all_ok m env h1 h2 h3 h4 h5 hreg h7]
  · intro hrun
    rcases startAsync_cases m env with hsucc | hfail
    · exact hsucc.1
    · rw [hfail.2, h] at hrun
      simp at hrun
  · intro hok
    rcases startAsync_cases m env with hsucc | hfail
    · exact hsucc.2.1
    · exact absurd hok hfail.1
  · intro hne
    rcases startAsync_cases m env with hsucc | hfail
    · exact absurd hsucc.1 hne
    · rw [hfail.2, h]
  · intro h1
    rw [startAsync_maint_fail m env h1]
  · intro h1 h2
    rw [startAsync_regmaster_fail m env h1 h2]
  · intro h1 h2 h3
    rw [startAsync_regconsensus_fail m env h1 h2 h3]
  · intro h1 h2 h3 h4
    rw [startAsync_regtabletcopy_fail m env h1 h2 h3 h4]
  · intro h1 h2 h3 h4 h5
    rw [startAsync_serverstart_fail m env h1 h2 h3 h4 h5]
  · intro h1 h2 h3 h4 h5 hreg
    rw [startAsync_reg_fail m env h1 h2 h3 h4 h5 hreg]
  · intro h1 h2 h3 h4 h5 hreg h7
    rw [startAsync_submit_fail m env h1 h2 h3 h4 h5 hreg h7]

/-- Witness for C5: with every step succeeding from Initialized, the
state becomes Running. -/
theorem startAsync_failure_keeps_initialized_witness :
    (startAsync exMasterInit exStartEnvOk).2.state = NodeState.kRunning :=
  (startAsync_failure_keeps_initialized exMasterInit exStartEnvOk rfl).2.1.mpr rfl

/-- C7: `Shutdown` always ends in the Stopped state and returns nothing
(there is no status to produce an error with); the teardown sequence —
unregister services, maintenance-manager shutdown, catalog-manager
shutdown, generic server shutdown, in that order — runs exactly when the
state was Running; a second consecutive call is a no-op that again ends
Stopped. -/
theorem shutdown_idempotent_stops (m : Master) :
    (shutdown m).1.state = NodeState.kStopped
    ∧ (m.state = NodeState.kRunning →
        (shutdown m).2 =
          [TeardownStep.unregisterAllServices,
           TeardownStep.maintenanceManagerShutdown,
           TeardownStep.catalogManagerShutdown,
           TeardownStep.kuduServerShutdown])
    ∧ (m.state ≠ NodeState.kRunning → (shutdown m).2 = [])
    ∧ (shutdown (shutdown m).1).1.state = NodeState.kStopped
    ∧ (shutdown (shutdown m).1).2 = [] := by
  by_cases hm : m.state = NodeState.kRunning <;> simp [shutdown, hm]

/-- Witness for C7 at a running master: the full teardown trace runs. -/
theorem shutdown_idempotent_stops_witness :
    (shutdown exMasterRunning).2 =
      [TeardownStep.unregisterAllServices,
       TeardownStep.maintenanceManagerShutdown,
       TeardownStep.catalogManagerShutdown,
       TeardownStep.kuduServerShutdown] :=
  (shutdown_idempotent_stops exMasterRunning).2.1 rfl

/-- C8: when the catalog manager already reports initialized,
`InitCatalogManager` returns the illegal-state failure, the background
task writes exactly that status into the one-shot `init_status_`
promise, and `WaitForCatalogManagerInit` (a pure read of the promise,
hence identical for every caller) observes it.  The hypotheses are the
preconditions of the code path: the master is Running and the promise is
not yet set. -/
theorem double_init_illegal_state_observed_by_waiters (m : Master)
    (catalog_init : Status) (_hrun : m.state = NodeState.kRunning)
    (hinit : m.catalogIsInitialized = true) (_hunset : m.init_status = none) :
    initCatalogManager m catalog_init =
      Status.illegalState "Catalog manager is already initialized"
    ∧ waitForCatalogManagerInit (initCatalogManagerTask m catalog_init) =
        some (Status.illegalState "Catalog manager is already initialized") := by
  simp [initCatalogManager, hinit, initCatalogManagerTask, waitForCatalogManagerInit]

/-- Witness for C8 at a concrete running master with an initialized
catalog manager. -/
theorem double_init_illegal_state_observed_by_waiters_witness :
    waitForCatalogManagerInit (initCatalogManagerTask exMasterCatalogInited Status.ok) =
      some (Status.illegalState "Catalog manager is already initialized") :=
  (double_init_illegal_state_observed_by_waiters exMasterCatalogInited Status.ok
    rfl rfl rfl).2

/-!
## Dedup-set lemmas
-/

/-- Membership after insertion comes from the set or is the new entry. -/
theorem mem_insertIfNotPresent {l : List ServerEntryPB} {e x : ServerEntryPB}
    (hx : x ∈ insertIfNotPresent l e) : x ∈ l ∨ x = e := by
  induction l with
  | nil => simpa [insertIfNotPresent] using hx
  | cons a as ih =>
    by_cases h1 : entryUuid e < entryUuid a
    · simp only [insertIfNotPresent, if_pos h1] at hx
      rcases List.mem_cons.mp hx with he | hrest
      · exact Or.inr he
      · exact Or.inl hrest
    · by_cases h2 : entryUuid a < entryUuid e
      · simp only [insertIfNotPresent, if_neg h1, if_pos h2] at hx
        rcases List.mem_cons.mp hx with ha | hrest
        · exact Or.inl (ha ▸ List.mem_cons_self a as)
        · rcases ih hrest with hmem | heq
          · exact Or.inl (List.mem_cons_of_mem a hmem)
          · exact Or.inr heq
      · simp only [insertIfNotPresent, if_neg h1, if_neg h2] at hx
        exact Or.inl hx

/-- Insertion never removes an element. -/
theorem subset_insertIfNotPresent {l : List ServerEntryPB} {e x : ServerEntryPB}
    (hx : x ∈ l) : x ∈ insertIfNotPresent l e := by
  induction l with
  | nil => cases hx
  | cons a as ih =>
    by_cases h1 : entryUuid e < entryUuid a
    · simp only [insertIfNotPresent, if_pos h1]
      exact List.mem_cons_of_mem e hx
    · by_cases h2 : entryUuid a < entryUuid e
      · simp only [insertIfNotPresent, if_neg h1, if_pos h2]
        rcases List.mem_cons.mp hx with ha | hrest
        · exact ha ▸ List.mem_cons_self a _
        · exact List.mem_cons_of_mem a (ih hrest)
      · simpa only [insertIfNotPresent, if_neg h1, if_neg h2] using hx

/-- After inserting `e`, some element carries the key of `e`. -/
theorem key_covered_insertIfNotPresent (l : List ServerEntryPB)
    (e : ServerEntryPB) :
    ∃ x ∈ insertIfNotPresent l e, entryUuid x = entryUuid e := by
  induction l with
  | nil =>
    refine ⟨e, ?_, rfl⟩
    simp only [insertIfNotPresent]
    exact List.mem_cons_self e []
  | cons a as ih =>
    by_cases h1 : entryUuid e < entryUuid a
    · refine ⟨e, ?_, rfl⟩
      simp only [insertIfNotPresent, if_pos h1]
      exact List.mem_cons_self e _
    · by_cases h2 : entryUuid a < entryUuid e
      · rcases ih with ⟨x, hx, hkey⟩
        refine ⟨x, ?_, hkey⟩
        simp only [insertIfNotPresent, if_neg h1, if_pos h2]
        exact List.mem_cons_of_mem a hx
      · refine ⟨a, ?_, le_antisymm (not_lt.mp h1) (not_lt.mp h2)⟩
        simp only [insertIfNotPresent, if_neg h1, if_neg h2]
        exact List.mem_cons_self a as

/-- Insertion preserves strict sortedness by key. -/
theorem pairwise_insertIfNotPresent {l : List ServerEntryPB} {e : ServerEntryPB}
    (hl : l.Pairwise (fun a b => entryUuid a < entryUuid b)) :
    (insertIfNotPresent l e).Pairwise (fun a b => entryUuid a < entryUuid b) := by
  induction l with
  | nil => simp [insertIfNotPresent]
  | cons a as ih =>
    rcases List.pairwise_cons.mp hl with ⟨ha, has⟩
    by_cases h1 : entryUuid e < entryUuid a
    · simp only [insertIfNotPresent, if_pos h1]
      refine List.pairwise_cons.mpr ⟨?_, hl⟩
      intro y hy
      rcases List.mem_cons.mp hy with rfl | hmem
      · exact h1
      · exact lt_trans h1 (ha y hmem)
    · by_cases h2 : entryUuid a < entryUuid e
      · simp only [insertIfNotPresent, if_neg h1, if_pos h2]
        refine List.pairwise_cons.mpr ⟨?_, ih has⟩
        intro y hy
        rcases mem_insertIfNotPresent hy with hmem | rfl
        · exact ha y hmem
        · exact h2
      · simpa only [insertIfNotPresent, if_neg h1, if_neg h2] using hl

/-- Inserting an entry whose key is already present in a sorted set
leaves the set unchanged: the first entry wins. -/
theorem insertIfNotPresent_eq_of_key_mem {l : List ServerEntryPB}
    {e z : ServerEntryPB}
    (hl : l.Pairwise (fun a b => entryUuid a < entryUuid b))
    (hz : z ∈ l) (hkey : entryUuid z = entryUuid e) :
    insertIfNotPresent l e = l := by
  induction l with
  | nil => cases hz
  | cons a as ih =>
    rcases List.pairwise_cons.mp hl with ⟨ha, has⟩
    rcases List.mem_cons.mp hz with heqz | hmem
    · have hae : entryUuid a = entryUuid e := heqz ▸ hkey
      have h1 : ¬ entryUuid e < entryUuid a := by
        rw [← hae]
        exact lt_irrefl _
      have h2 : ¬ entryUuid a < entryUuid e := by
        rw [← hae]
        exact lt_irrefl _
      simp only [insertIfNotPresent, if_neg h1, if_neg h2]
    · have haz : entryUuid a < entryUuid z := ha z hmem
      have h2 : entryUuid a < entryUuid e := hkey ▸ haz
      have h1 : ¬ entryUuid e < entryUuid a := not_lt.mpr (le_of_lt h2)
      simp only [insertIfNotPresent, if_neg h1, if_pos h2]
      rw [ih has hmem]

/-- In a strictly key-sorted list, at most one element matches a key. -/
theorem length_filter_key_le_one {l : List ServerEntryPB}
    (hl : l.Pairwise (fun a b => entryUuid a < entryUuid b)) (u : String) :
    (l.filter (fun x => entryUuid x == u)).length ≤ 1 := by
  induction l with
  | nil => simp
  | cons a as ih =>
    rcases List.pairwise_cons.mp hl with ⟨ha, has⟩
    by_cases hu : entryUuid a = u
    · have hrest : as.filter (fun x => entryUuid x == u) = [] := by
        rw [List.filter_eq_nil_iff]
        intro y hy
        have : entryUuid a < entryUuid y := ha y hy
        simp only [beq_iff_eq]
        rw [← hu]
        exact ne_of_gt this
      simp [List.filter_cons, hu, hrest]
    · simpa [List.filter_cons, hu] using ih has

/-- Invariant of the `ListMasters` dedup fold: folding entries `es` into
a sorted set `acc` that faithfully represents the already-processed
entries `p` (each member is the first processed entry with its key, and
every processed key is represented) yields a sorted set faithfully
representing `p ++ es`. -/
theorem dedup_fold_invariant (es : List ServerEntryPB) :
    ∀ acc p : List ServerEntryPB,
    acc.Pairwise (fun a b => entryUuid a < entryUuid b) →
    (∀ x ∈ acc, p.find? (fun y => entryUuid y == entryUuid x) = some x) →
    (∀ y ∈ p, ∃ x ∈ acc, entryUuid x = entryUuid y) →
    ((es.foldl insertIfNotPresent acc).Pairwise
        (fun a b => entryUuid a < entryUuid b)
      ∧ (∀ x ∈ es.foldl insertIfNotPresent acc,
          (p ++ es).find? (fun y => entryUuid y == entryUuid x) = some x)
      ∧ (∀ y ∈ p ++ es,
          ∃ x ∈ es.foldl insertIfNotPresent acc, entryUuid x = entryUuid y)) := by
  induction es with
  | nil =>
    intro acc p hsort hfind hcover
    rw [List.foldl_nil, List.append_nil]
    exact ⟨hsort, hfind, hcover⟩
  | cons e es ih =>
    intro acc p hsort hfind hcover
    have hsort' := pairwise_insertIfNotPresent (e := e) hsort
    have hap : (p ++ [e]) ++ es = p ++ e :: es := by
      rw [List.append_assoc]
      rfl
    by_cases hdup : ∃ z ∈ acc, entryUuid z = entryUuid e
    · rcases hdup with ⟨z, hz, hzkey⟩
      have heq : insertIfNotPresent acc e = acc :=
        insertIfNotPresent_eq_of_key_mem hsort hz hzkey
      have hfind' : ∀ x ∈ insertIfNotPresent acc e,
          (p ++ [e]).find? (fun y => entryUuid y == entryUuid x) = some x := by
        intro x hx
        rw [heq] at hx
        rw [List.find?_append, hfind x hx]
        rfl
      have hcover' : ∀ y ∈ p ++ [e],
          ∃ x ∈ insertIfNotPresent acc e, entryUuid x = entryUuid y := by
        intro y hy
        rw [heq]
        rcases List.mem_append.mp hy with hyp | hye
        · exact hcover y hyp
        · rcases List.mem_singleton.mp hye with rfl
          exact ⟨z, hz, hzkey⟩
      have step := ih (insertIfNotPresent acc e) (p ++ [e]) hsort' hfind' hcover'
      rw [List.foldl_cons, ← hap]
      exact step
    · push_neg at hdup
      have hfind' : ∀ x ∈ insertIfNotPresent acc e,
          (p ++ [e]).find? (fun y => entryUuid y == entryUuid x) = some x := by
        intro x hx
        rcases mem_insertIfNotPresent hx with hmem | rfl
        · rw [List.find?_append, hfind x hmem]
          rfl
        · have hnone : p.find? (fun y => entryUuid y == entryUuid x) = none := by
            rw [List.find?_eq_none]
            intro z hz hkey
            rcases hcover z hz with ⟨w, hw, hwkey⟩
            exact hdup w hw (hwkey.trans (by simpa using hkey))
          rw [List.find?_append, hnone]
          simp
      have hcover' : ∀ y ∈ p ++ [e],
          ∃ x ∈ insertIfNotPresent acc e, entryUuid x = entryUuid y := by
        intro y hy
        rcases List.mem_append.mp hy with hyp | hye
        · rcases hcover y hyp with ⟨x, hx, hxkey⟩
          exact ⟨x, subset_insertIfNotPresent hx, hxkey⟩
        · rcases List.mem_singleton.mp hye with rfl
          exact key_covered_insertIfNotPresent acc y
      have step := ih (insertIfNotPresent acc e) (p ++ [e]) hsort' hfind' hcover'
      rw [List.foldl_cons, ← hap]
      exact step

/-- The dedup fold from an empty set: sorted result, every result member
is the first input entry carrying its key, and every input key is
represented in the result. -/
theorem dedup_entries_spec (es : List ServerEntryPB) :
    ((es.foldl insertIfNotPresent []).Pairwise
        (fun a b => entryUuid a < entryUuid b))
    ∧ (∀ x ∈ es.foldl insertIfNotPresent [],
        es.find? (fun y => entryUuid y == entryUuid x) = some x)
    ∧ (∀ y ∈ es, ∃ x ∈ es.foldl insertIfNotPresent [], entryUuid x = entryUuid y) := by
  simpa using dedup_fold_invariant es [] [] (by simp) (by simp) (by simp)

/-- In distributed mode `ListMasters` is the dedup fold over the entries
captured for the configured addresses, in order. -/
theorem listMasters_distributed_eq (m : Master) (rpc : HostPort → PeerRpcEnv)
    (h : m.opts.distributed = true) :
    listMasters m rpc = Except.ok
      ((m.opts.master_addresses.map
        (fun a => masterEntryForPeer a (rpc a))).foldl insertIfNotPresent []) := by
  simp [listMasters, h, List.foldl_map]

/-!
## Shapes of captured peer entries
-/

/-- A peer that produced no response yields the default entry — empty
identity, no registration, no role — with only the error field set. -/
theorem masterEntryForPeer_noResponse (a : HostPort) (p : PeerRpcEnv)
    (h : peerNoResponse p = true) :
    (masterEntryForPeer a p).error.isSome = true
    ∧ entryUuid (masterEntryForPeer a p) = ""
    ∧ (masterEntryForPeer a p).registration = none
    ∧ (masterEntryForPeer a p).role = none := by
  by_cases hr : p.resolve.isOk
  · have hc : p.rpcCall.isOk = false := by
      simpa [peerNoResponse, hr] using h
    simp [masterEntryForPeer, getMasterEntryForHost, hr, hc, entryUuid,
      defaultServerEntry]
  · have hr' : p.resolve.isOk = false := by simpa using hr
    simp [masterEntryForPeer, getMasterEntryForHost, hr', entryUuid,
      defaultServerEntry]

/-- A peer whose registration fetch succeeded end to end yields the
fully populated entry: identity and registration and role from the
response, and no error. -/
theorem masterEntryForPeer_ok (a : HostPort) (p : PeerRpcEnv)
    (h1 : p.resolve = Status.ok) (h2 : p.rpcCall = Status.ok)
    (h3 : p.resp.error = none) :
    masterEntryForPeer a p =
      { instance_id := p.resp.instance_id,
        registration := some p.resp.registration,
        role := some p.resp.role,
        error := none } := by
  simp [masterEntryForPeer, getMasterEntryForHost, h1, h2, h3, Status.isOk,
    defaultServerEntry]

/-- Any failing fetch yields an entry with the error recorded and with
neither registration nor role. -/
theorem masterEntryForPeer_fail (a : HostPort) (p : PeerRpcEnv)
    (h : (getMasterEntryForHost p).1 ≠ Status.ok) :
    (masterEntryForPeer a p).error.isSome = true
    ∧ (masterEntryForPeer a p).registration = none
    ∧ (masterEntryForPeer a p).role = none := by
  have hok : (getMasterEntryForHost p).1.isOk = false := by
    by_cases hb : (getMasterEntryForHost p).1.isOk = true
    · exact absurd ((Status.isOk_iff _).mp hb) h
    · simpa using hb
  by_cases hr : p.resolve.isOk
  · by_cases hc : p.rpcCall.isOk
    · cases herr : p.resp.error with
      | none =>
        exfalso
        apply h
        simp [getMasterEntryForHost, hr, hc, herr]
      | some st =>
        have hst : st.isOk = false := by
          have hfst : (getMasterEntryForHost p).1 = st := by
            simp [getMasterEntryForHost, hr, hc, herr]
          rw [hfst] at hok
          exact hok
        simp [masterEntryForPeer, getMasterEntryForHost, hr, hc, herr, hst,
          defaultServerEntry]
    · have hc' : p.rpcCall.isOk = false := by simpa using hc
      simp [masterEntryForPeer, getMasterEntryForHost, hr, hc', defaultServerEntry]
  · have hr' : p.resolve.isOk = false := by simpa using hr
    simp [masterEntryForPeer, getMasterEntryForHost, hr', defaultServerEntry]

/-!
## ListMasters claims
-/

/-- C6: in single-node mode `ListMasters` propagates the
service-unavailable failure while the local registration is not yet
built, and otherwise returns exactly one entry: the catalog manager's
node instance, the registration from `GetMasterRegistration`, role
leader, no error. -/
theorem listMasters_single_node (m : Master) (rpc : HostPort → PeerRpcEnv)
    (h : m.opts.distributed = false) :
    (m.registration_initialized = false →
      listMasters m rpc =
        Except.error (Status.serviceUnavailable "Master startup not complete"))
    ∧ (m.registration_initialized = true →
      listMasters m rpc = Except.ok
        [{ instance_id := m.catalogNodeInstance,
           registration := some m.registration,
           role := some RaftRole.leader,
           error := none }]) := by
  constructor
  · intro hflag
    simp [listMasters, h, getMasterRegistration, hflag]
  · intro hflag
    simp [listMasters, h, getMasterRegistration, hflag]

/-- Witness for C6 at a single-node master with a built registration. -/
theorem listMasters_single_node_witness :
    listMasters exMasterRunning exRpcOneDown = Except.ok
      [{ instance_id := exMasterRunning.catalogNodeInstance,
         registration := some exMasterRunning.registration,
         role := some RaftRole.leader,
         error := none }] :=
  (listMasters_single_node exMasterRunning exRpcOneDown rfl).2 rfl

/-- C2: multi-node `ListMasters` always returns OK; the entry captured
for a failing peer carries an error and no registration, the entry for
a succeeding peer carries identity, registration and role with no
error; every configured peer's identity is represented in the result
(no peer aborts or skips the rest) and every result entry is one of the
captured peer entries. -/
theorem listMasters_multi_isolates_peer_failures (m : Master)
    (rpc : HostPort → PeerRpcEnv) (h : m.opts.distributed = true) :
    ∃ entries, listMasters m rpc = Except.ok entries
      ∧ (∀ a ∈ m.opts.master_addresses,
          (getMasterEntryForHost (rpc a)).1 ≠ Status.ok →
            (masterEntryForPeer a (rpc a)).error.isSome = true
            ∧ (masterEntryForPeer a (rpc a)).registration = none)
      ∧ (∀ a ∈ m.opts.master_addresses,
          (rpc a).resolve = Status.ok → (rpc a).rpcCall = Status.ok →
          (rpc a).resp.error = none →
            masterEntryForPeer a (rpc a) =
              { instance_id := (rpc a).resp.instance_id,
                registration := some (rpc a).resp.registration,
                role := some (rpc a).resp.role,
                error := none })
      ∧ (∀ a ∈ m.opts.master_addresses,
          ∃ x ∈ entries, entryUuid x = entryUuid (masterEntryForPeer a (rpc a)))
      ∧ (∀ x ∈ entries, ∃ a ∈ m.opts.master_addresses,
          x = masterEntryForPeer a (rpc a)) := by
  refine ⟨_, listMasters_distributed_eq m rpc h, ?_, ?_, ?_, ?_⟩
  · intro a _ hfail
    exact ⟨(masterEntryForPeer_fail a (rpc a) hfail).1,
      (masterEntryForPeer_fail a (rpc a) hfail).2.1⟩
  · intro a _ h1 h2 h3
    exact masterEntryForPeer_ok a (rpc a) h1 h2 h3
  · intro a ha
    exact (dedup_entries_spec (m.opts.master_addresses.map
      (fun a => masterEntryForPeer a (rpc a)))).2.2 _
      (List.mem_map_of_mem _ ha)
  · intro x hx
    have hfind := (dedup_entries_spec (m.opts.master_addresses.map
      (fun a => masterEntryForPeer a (rpc a)))).2.1 x hx
    rcases List.mem_map.mp (List.mem_of_find?_eq_some hfind) with ⟨a, ha, hax⟩
    exact ⟨a, ha, hax.symm⟩

/-- Witness for C2: three configured peers with the middle one
unreachable. -/
theorem listMasters_multi_isolates_peer_failures_witness :
    ∃ entries, listMasters exMasterMulti exRpcOneDown = Except.ok entries
      ∧ (∀ a ∈ exMasterMulti.opts.master_addresses,
          (getMasterEntryForHost (exRpcOneDown a)).1 ≠ Status.ok →
            (masterEntryForPeer a (exRpcOneDown a)).error.isSome = true
            ∧ (masterEntryForPeer a (exRpcOneDown a)).registration = none)
      ∧ (∀ a ∈ exMasterMulti.opts.master_addresses,
          (exRpcOneDown a).resolve = Status.ok →
          (exRpcOneDown a).rpcCall = Status.ok →
          (exRpcOneDown a).resp.error = none →
            masterEntryForPeer a (exRpcOneDown a) =
              { instance_id := (exRpcOneDown a).resp.instance_id,
                registration := some (exRpcOneDown a).resp.registration,
                role := some (exRpcOneDown a).resp.role,
                error := none })
      ∧ (∀ a ∈ exMasterMulti.opts.master_addresses,
          ∃ x ∈ entries,
            entryUuid x = entryUuid (masterEntryForPeer a (exRpcOneDown a)))
      ∧ (∀ x ∈ entries, ∃ a ∈ exMasterMulti.opts.master_addresses,
          x = masterEntryForPeer a (exRpcOneDown a)) :=
  listMasters_multi_isolates_peer_failures exMasterMulti exRpcOneDown rfl

/-- C4: in multi-node mode the result is strictly sorted by identity,
each returned entry is the first captured entry (in configured-address
order) carrying its identity — later duplicates are dropped — and each
represented identity occurs exactly once. -/
theorem listMasters_dedup_first_wins_sorted (m : Master)
    (rpc : HostPort → PeerRpcEnv) (h : m.opts.distributed = true) :
    ∃ entries, listMasters m rpc = Except.ok entries
      ∧ entries.Pairwise (fun a b => entryUuid a < entryUuid b)
      ∧ (∀ x ∈ entries,
          (m.opts.master_addresses.map
            (fun a => masterEntryForPeer a (rpc a))).find?
              (fun y => entryUuid y == entryUuid x) = some x)
      ∧ (∀ u, (∃ a ∈ m.opts.master_addresses,
            entryUuid (masterEntryForPeer a (rpc a)) = u) →
          (entries.filter (fun x => entryUuid x == u)).length = 1) := by
  refine ⟨_, listMasters_distributed_eq m rpc h,
    (dedup_entries_spec _).1, (dedup_entries_spec _).2.1, ?_⟩
  rintro u ⟨a, ha, hu⟩
  rcases (dedup_entries_spec (m.opts.master_addresses.map
      (fun a => masterEntryForPeer a (rpc a)))).2.2 _
      (List.mem_map_of_mem _ ha) with ⟨x, hx, hxkey⟩
  have hle := length_filter_key_le_one (dedup_entries_spec
    (m.opts.master_addresses.map (fun a => masterEntryForPeer a (rpc a)))).1 u
  have hge : 0 < (((m.opts.master_addresses.map
      (fun a => masterEntryForPeer a (rpc a))).foldl insertIfNotPresent
        []).filter (fun x => entryUuid x == u)).length :=
    List.length_pos_of_mem
      (List.mem_filter.mpr ⟨hx, by simp [hxkey, hu]⟩)
  omega

/-- Witness for C4: two configured addresses answering as the same
physical peer. -/
theorem listMasters_dedup_first_wins_sorted_witness :
    ∃ entries, listMasters exMasterMulti exRpcDup = Except.ok entries
      ∧ entries.Pairwise (fun a b => entryUuid a < entryUuid b)
      ∧ (∀ x ∈ entries,
          (exMasterMulti.opts.master_addresses.map
            (fun a => masterEntryForPeer a (exRpcDup a))).find?
              (fun y => entryUuid y == entryUuid x) = some x)
      ∧ (∀ u, (∃ a ∈ exMasterMulti.opts.master_addresses,
            entryUuid (masterEntryForPeer a (exRpcDup a)) = u) →
          (entries.filter (fun x => entryUuid x == u)).length = 1) :=
  listMasters_dedup_first_wins_sorted exMasterMulti exRpcDup rfl

/-- C9: a transport-level failure leaves the entry's identity empty (the
identity is copied only after the RPC succeeds); hence when at least two
configured peers fail that way — and the responding peers report
distinct-from-empty identities and no embedded error — all the failed
entries share the empty identity, deduplication keeps only the first,
and the result carries exactly one error entry: fewer than the number of
unreachable peers. -/
theorem transport_failures_share_empty_identity (m : Master)
    (rpc : HostPort → PeerRpcEnv) (h : m.opts.distributed = true)
    (hwf : ∀ a ∈ m.opts.master_addresses,
        peerNoResponse (rpc a) = true ∨
          ((rpc a).resolve = Status.ok ∧ (rpc a).rpcCall = Status.ok ∧
           (rpc a).resp.error = none ∧
           (rpc a).resp.instance_id.permanent_uuid ≠ ""))
    (htwo : 2 ≤ m.opts.master_addresses.countP
        (fun a => peerNoResponse (rpc a))) :
    ∃ entries, listMasters m rpc = Except.ok entries
      ∧ (∀ a ∈ m.opts.master_addresses, peerNoResponse (rpc a) = true →
          entryUuid (masterEntryForPeer a (rpc a)) = "")
      ∧ (entries.filter (fun x => x.error.isSome)).length = 1
      ∧ (entries.filter (fun x => x.error.isSome)).length <
          m.opts.master_addresses.countP (fun a => peerNoResponse (rpc a)) := by
  have spec := dedup_entries_spec
    (m.opts.master_addresses.map (fun a => masterEntryForPeer a (rpc a)))
  have hmem : ∀ x ∈ (m.opts.master_addresses.map
      (fun a => masterEntryForPeer a (rpc a))).foldl insertIfNotPresent [],
      ∃ a ∈ m.opts.master_addresses, x = masterEntryForPeer a (rpc a) := by
    intro x hx
    rcases List.mem_map.mp (List.mem_of_find?_eq_some (spec.2.1 x hx))
      with ⟨a, ha, hax⟩
    exact ⟨a, ha, hax.symm⟩
  have hpt : ∀ x ∈ (m.opts.master_addresses.map
      (fun a => masterEntryForPeer a (rpc a))).foldl insertIfNotPresent [],
      x.error.isSome = (entryUuid x == "") := by
    intro x hx
    rcases hmem x hx with ⟨a, ha, rfl⟩
    rcases hwf a ha with hnr | ⟨h1, h2, h3, h4⟩
    · have hn := masterEntryForPeer_noResponse a (rpc a) hnr
      rw [hn.1, hn.2.1]
      simp
    · rw [masterEntryForPeer_ok a (rpc a) h1 h2 h3]
      simp [entryUuid, h4]
  have hfilter : (((m.opts.master_addresses.map
      (fun a => masterEntryForPeer a (rpc a))).foldl insertIfNotPresent
        []).filter (fun x => x.error.isSome))
      = (((m.opts.master_addresses.map
      (fun a => masterEntryForPeer a (rpc a))).foldl insertIfNotPresent
        []).filter (fun x => entryUuid x == "")) :=
    List.filter_congr hpt
  obtain ⟨a0, ha0, hnr0⟩ :
      ∃ a ∈ m.opts.master_addresses, peerNoResponse (rpc a) = true :=
    List.countP_pos_iff.mp (by omega)
  rcases spec.2.2 _ (List.mem_map_of_mem
    (fun a => masterEntryForPeer a (rpc a)) ha0) with ⟨x0, hx0, hx0key⟩
  have hx0empty : entryUuid x0 = "" :=
    hx0key.trans (masterEntryForPeer_noResponse a0 (rpc a0) hnr0).2.1
  have hge : 0 < (((m.opts.master_addresses.map
      (fun a => masterEntryForPeer a (rpc a))).foldl insertIfNotPresent
        []).filter (fun x => entryUuid x == "")).length :=
    List.length_pos_of_mem (List.mem_filter.mpr ⟨hx0, by simp [hx0empty]⟩)
  have hle := length_filter_key_le_one spec.1 ""
  have hlen : (((m.opts.master_addresses.map
      (fun a => masterEntryForPeer a (rpc a))).foldl insertIfNotPresent
        []).filter (fun x => x.error.isSome)).length = 1 := by
    rw [hfilter]
    omega
  refine ⟨_, listMasters_distributed_eq m rpc h, ?_, hlen, ?_⟩
  · intro a _ hnr
    exact (masterEntryForPeer_noResponse a (rpc a) hnr).2.1
  · rw [hlen]
    omega

/-- Witness for C9: peers A and B unreachable, C responding. -/
theorem transport_failures_share_empty_identity_witness :
    ∃ entries, listMasters exMasterMulti exRpcTwoDown = Except.ok entries
      ∧ (∀ a ∈ exMasterMulti.opts.master_addresses,
          peerNoResponse (exRpcTwoDown a) = true →
          entryUuid (masterEntryForPeer a (exRpcTwoDown a)) = "")
      ∧ (entries.filter (fun x => x.error.isSome)).length = 1
      ∧ (entries.filter (fun x => x.error.isSome)).length <
          exMasterMulti.opts.master_addresses.countP
            (fun a => peerNoResponse (exRpcTwoDown a)) :=
  transport_failures_share_empty_identity exMasterMulti exRpcTwoDown rfl
    (by decide) (by decide)

end KuduMaster
